import Mathlib

/-
Verification of the Dolphin tiny matrix/vector library
(Source/Core/Common/Matrix.h).

The C++ templates TVec2/TVec3/TVec4 are parameterized over a floating-point
scalar type T (instantiated at float and double); we embed the scalar as an
arbitrary field and state the theorems at the real numbers.  The union of a
std::array and an x/y/(z)/(w) field struct is embedded as a structure of the
named fields together with a derived array view; the default member
initializer for the array (data = braces) value-initializes every component
to zero, which the default-value definitions below record.

The matrix function bodies (Identity, RotateX/Y/Z, Scale, Multiply,
Translate, Shear, Perspective, Transform, FromMatrix33, FromArray) live in
Matrix.cpp, which is not part of the provided sources; those definitions are
modelled from the specification and are marked as such in their doc
comments.  Everything else is translated directly from Matrix.h.
-/

namespace Common

/-- TVec3 of Matrix.h lines 16-69: three named components x, y, z aliased
with a three-element array. -/
structure TVec3 (α : Type) where
  x : α
  y : α
  z : α

/-- Array view of the TVec3 storage (the data member, row of 3 cells,
aliased with the x/y/z fields). -/
def TVec3.dataView {α : Type} (v : TVec3 α) : Fin 3 → α :=
  ![v.x, v.y, v.z]

/-- The default constructor TVec3() = default with the member initializer
data = braces: every component value-initialized to zero. -/
def TVec3.defaultValue (α : Type) [Field α] : TVec3 α :=
  ⟨0, 0, 0⟩

/-- Dot of Matrix.h line 22: x * other.x + y * other.y + z * other.z. -/
def TVec3.Dot {α : Type} [Field α] (v other : TVec3 α) : α :=
  v.x * other.x + v.y * other.y + v.z * other.z

/-- LengthSquared of Matrix.h line 23: Dot(*this). -/
def TVec3.LengthSquared {α : Type} [Field α] (v : TVec3 α) : α :=
  v.Dot v

/-- Length of Matrix.h line 24: std::sqrt(LengthSquared()), at the real
scalar instantiations (float and double). -/
noncomputable def TVec3.Length (v : TVec3 ℝ) : ℝ :=
  Real.sqrt v.LengthSquared

/-- Compound operator += of Matrix.h lines 27-33: componentwise addition
into the left operand, which is then returned. -/
def TVec3.addAssign {α : Type} [Field α] (lhs rhs : TVec3 α) : TVec3 α :=
  ⟨lhs.x + rhs.x, lhs.y + rhs.y, lhs.z + rhs.z⟩

/-- Compound operator -= of Matrix.h lines 35-41. -/
def TVec3.subAssign {α : Type} [Field α] (lhs rhs : TVec3 α) : TVec3 α :=
  ⟨lhs.x - rhs.x, lhs.y - rhs.y, lhs.z - rhs.z⟩

/-- Compound operator *= of Matrix.h lines 43-49 (componentwise product). -/
def TVec3.mulAssign {α : Type} [Field α] (lhs rhs : TVec3 α) : TVec3 α :=
  ⟨lhs.x * rhs.x, lhs.y * rhs.y, lhs.z * rhs.z⟩

/-- Compound operator /= of Matrix.h lines 51-57 (componentwise quotient). -/
def TVec3.divAssign {α : Type} [Field α] (lhs rhs : TVec3 α) : TVec3 α :=
  ⟨lhs.x / rhs.x, lhs.y / rhs.y, lhs.z / rhs.z⟩

/-- Unary operator - of Matrix.h line 59: componentwise negation. -/
def TVec3.neg {α : Type} [Field α] (v : TVec3 α) : TVec3 α :=
  ⟨-v.x, -v.y, -v.z⟩

/-- Free operator + of Matrix.h lines 71-75: copies lhs, delegates to +=. -/
def TVec3.add {α : Type} [Field α] (lhs rhs : TVec3 α) : TVec3 α :=
  TVec3.addAssign lhs rhs

/-- Free operator - of Matrix.h lines 77-81: copies lhs, delegates to -=. -/
def TVec3.sub {α : Type} [Field α] (lhs rhs : TVec3 α) : TVec3 α :=
  TVec3.subAssign lhs rhs

/-- Free elementwise operator * of Matrix.h lines 83-87. -/
def TVec3.mul {α : Type} [Field α] (lhs rhs : TVec3 α) : TVec3 α :=
  TVec3.mulAssign lhs rhs

/-- Free elementwise operator / of Matrix.h lines 89-93. -/
def TVec3.div {α : Type} [Field α] (lhs rhs : TVec3 α) : TVec3 α :=
  TVec3.divAssign lhs rhs

/-- Scalar operator * of Matrix.h lines 95-99: broadcasts the scalar into a
vector and delegates to the elementwise *=. -/
def TVec3.smul {α : Type} [Field α] (lhs : TVec3 α) (scalar : α) : TVec3 α :=
  TVec3.mulAssign lhs ⟨scalar, scalar, scalar⟩

/-- Scalar operator / of Matrix.h lines 101-105: broadcasts the scalar into
a vector and delegates to the elementwise /=. -/
def TVec3.sdiv {α : Type} [Field α] (lhs : TVec3 α) (scalar : α) : TVec3 α :=
  TVec3.divAssign lhs ⟨scalar, scalar, scalar⟩

/-- Normalized of Matrix.h line 25: *this / Length(), via the scalar
division operator.  No zero-length guard is performed. -/
noncomputable def TVec3.Normalized (v : TVec3 ℝ) : TVec3 ℝ :=
  v.sdiv v.Length

/-- TVec4 of Matrix.h lines 110-147: four named components x, y, z, w
aliased with a four-element array. -/
structure TVec4 (α : Type) where
  x : α
  y : α
  z : α
  w : α

/-- Array view of the TVec4 storage. -/
def TVec4.dataView {α : Type} (v : TVec4 α) : Fin 4 → α :=
  ![v.x, v.y, v.z, v.w]

/-- The default constructor TVec4() = default with data = braces: every
component value-initialized to zero. -/
def TVec4.defaultValue (α : Type) [Field α] : TVec4 α :=
  ⟨0, 0, 0, 0⟩

/-- Constructor TVec4(TVec3, w) of Matrix.h line 114. -/
def TVec4.ofVec3 {α : Type} (v : TVec3 α) (w : α) : TVec4 α :=
  ⟨v.x, v.y, v.z, w⟩

/-- Compound elementwise operator *= of Matrix.h lines 117-124. -/
def TVec4.mulAssign {α : Type} [Field α] (lhs rhs : TVec4 α) : TVec4 α :=
  ⟨lhs.x * rhs.x, lhs.y * rhs.y, lhs.z * rhs.z, lhs.w * rhs.w⟩

/-- Compound elementwise operator /= of Matrix.h lines 126-133. -/
def TVec4.divAssign {α : Type} [Field α] (lhs rhs : TVec4 α) : TVec4 α :=
  ⟨lhs.x / rhs.x, lhs.y / rhs.y, lhs.z / rhs.z, lhs.w / rhs.w⟩

/-- Compound scalar *= of Matrix.h line 135: broadcast then elementwise. -/
def TVec4.smulAssign {α : Type} [Field α] (lhs : TVec4 α) (scalar : α) : TVec4 α :=
  TVec4.mulAssign lhs ⟨scalar, scalar, scalar, scalar⟩

/-- Compound scalar /= of Matrix.h line 136: broadcast then elementwise. -/
def TVec4.sdivAssign {α : Type} [Field α] (lhs : TVec4 α) (scalar : α) : TVec4 α :=
  TVec4.divAssign lhs ⟨scalar, scalar, scalar, scalar⟩

/-- Free scalar operator * of Matrix.h lines 149-153. -/
def TVec4.smul {α : Type} [Field α] (lhs : TVec4 α) (scalar : α) : TVec4 α :=
  TVec4.smulAssign lhs scalar

/-- Free scalar operator / of Matrix.h lines 155-159. -/
def TVec4.sdiv {α : Type} [Field α] (lhs : TVec4 α) (scalar : α) : TVec4 α :=
  TVec4.sdivAssign lhs scalar

/-- The TVec4 union body (Matrix.h lines 110-162) declares no binary + or -
between two TVec4 values, neither as members nor as free operators; this
flag records that absence of an overload in the source. -/
def TVec4.hasBinaryAddSub : Bool := false

/-- The TVec4 union body (Matrix.h lines 110-162) declares no unary
operator -; this flag records that absence of an overload in the source. -/
def TVec4.hasUnaryNeg : Bool := false

/-- TVec2 of Matrix.h lines 164-213: two named components x, y aliased with
a two-element array. -/
structure TVec2 (α : Type) where
  x : α
  y : α

/-- Array view of the TVec2 storage. -/
def TVec2.dataView {α : Type} (v : TVec2 α) : Fin 2 → α :=
  ![v.x, v.y]

/-- The default constructor TVec2() = default with data = braces: every
component value-initialized to zero. -/
def TVec2.defaultValue (α : Type) [Field α] : TVec2 α :=
  ⟨0, 0⟩

/-- Cross of Matrix.h line 170: (x * rhs.y) - (y * rhs.x). -/
def TVec2.Cross {α : Type} [Field α] (v rhs : TVec2 α) : α :=
  (v.x * rhs.y) - (v.y * rhs.x)

/-- Dot of Matrix.h line 171: (x * rhs.x) + (y * rhs.y). -/
def TVec2.Dot {α : Type} [Field α] (v rhs : TVec2 α) : α :=
  (v.x * rhs.x) + (v.y * rhs.y)

/-- LengthSquared of Matrix.h line 172: Dot(*this). -/
def TVec2.LengthSquared {α : Type} [Field α] (v : TVec2 α) : α :=
  v.Dot v

/-- Length of Matrix.h line 173: std::sqrt(LengthSquared()), at the real
scalar instantiations. -/
noncomputable def TVec2.Length (v : TVec2 ℝ) : ℝ :=
  Real.sqrt v.LengthSquared

/-- Compound operator += of Matrix.h lines 176-181. -/
def TVec2.addAssign {α : Type} [Field α] (lhs rhs : TVec2 α) : TVec2 α :=
  ⟨lhs.x + rhs.x, lhs.y + rhs.y⟩

/-- Compound operator -= of Matrix.h lines 183-188. -/
def TVec2.subAssign {α : Type} [Field α] (lhs rhs : TVec2 α) : TVec2 α :=
  ⟨lhs.x - rhs.x, lhs.y - rhs.y⟩

/-- Compound scalar *= of Matrix.h lines 190-195 (direct, no broadcast). -/
def TVec2.smulAssign {α : Type} [Field α] (lhs : TVec2 α) (scalar : α) : TVec2 α :=
  ⟨lhs.x * scalar, lhs.y * scalar⟩

/-- Compound scalar /= of Matrix.h lines 197-202 (direct, no broadcast). -/
def TVec2.sdivAssign {α : Type} [Field α] (lhs : TVec2 α) (scalar : α) : TVec2 α :=
  ⟨lhs.x / scalar, lhs.y / scalar⟩

/-- Unary operator - of Matrix.h line 204. -/
def TVec2.neg {α : Type} [Field α] (v : TVec2 α) : TVec2 α :=
  ⟨-v.x, -v.y⟩

/-- Free operator + of Matrix.h lines 215-219. -/
def TVec2.add {α : Type} [Field α] (lhs rhs : TVec2 α) : TVec2 α :=
  TVec2.addAssign lhs rhs

/-- Free operator - of Matrix.h lines 221-225. -/
def TVec2.sub {α : Type} [Field α] (lhs rhs : TVec2 α) : TVec2 α :=
  TVec2.subAssign lhs rhs

/-- Free scalar operator * of Matrix.h lines 227-231. -/
def TVec2.smul {α : Type} [Field α] (lhs : TVec2 α) (scalar : α) : TVec2 α :=
  TVec2.smulAssign lhs scalar

/-- Free scalar operator / of Matrix.h lines 233-237. -/
def TVec2.sdiv {α : Type} [Field α] (lhs : TVec2 α) (scalar : α) : TVec2 α :=
  TVec2.sdivAssign lhs scalar

/-- Normalized of Matrix.h line 174: *this / Length(), via the scalar
division operator.  No zero-length guard is performed. -/
noncomputable def TVec2.Normalized (v : TVec2 ℝ) : TVec2 ℝ :=
  v.sdiv v.Length

/-- Matrix33 of Matrix.h lines 242-266: a row-major array of 9 float cells,
cell of row r and column c at index r * 3 + c. -/
structure Matrix33 where
  data : Fin 9 → ℝ

/-- Modelled from the spec: Matrix33::Identity (declared Matrix.h line 245,
body in the absent Matrix.cpp) is the multiplicative identity, 1 on the
diagonal and 0 elsewhere. -/
def Matrix33.Identity : Matrix33 :=
  ⟨![1, 0, 0,
     0, 1, 0,
     0, 0, 1]⟩

/-- Modelled from the spec: Matrix33::RotateX (declared Matrix.h line 248,
body in the absent Matrix.cpp), row-major rows (1,0,0), (0,c,-s), (0,s,c)
with c = cos rad, s = sin rad. -/
noncomputable def Matrix33.RotateX (rad : ℝ) : Matrix33 :=
  ⟨![1, 0, 0,
     0, Real.cos rad, -Real.sin rad,
     0, Real.sin rad, Real.cos rad]⟩

/-- Modelled from the spec: Matrix33::RotateY (declared Matrix.h line 249,
body in the absent Matrix.cpp), row-major rows (c,0,s), (0,1,0), (-s,0,c). -/
noncomputable def Matrix33.RotateY (rad : ℝ) : Matrix33 :=
  ⟨![Real.cos rad, 0, Real.sin rad,
     0, 1, 0,
     -Real.sin rad, 0, Real.cos rad]⟩

/-- Modelled from the spec: Matrix33::RotateZ (declared Matrix.h line 250,
body in the absent Matrix.cpp), row-major rows (c,-s,0), (s,c,0), (0,0,1). -/
noncomputable def Matrix33.RotateZ (rad : ℝ) : Matrix33 :=
  ⟨![Real.cos rad, -Real.sin rad, 0,
     Real.sin rad, Real.cos rad, 0,
     0, 0, 1]⟩

/-- Modelled from the spec: Matrix33::Scale (declared Matrix.h line 252,
body in the absent Matrix.cpp), diagonal matrix with vec.x, vec.y, vec.z on
the diagonal and 0 elsewhere. -/
def Matrix33.Scale (vec : TVec3 ℝ) : Matrix33 :=
  ⟨![vec.x, 0, 0,
     0, vec.y, 0,
     0, 0, vec.z]⟩

/-- The fresh temporary of the matrix product a times b: the standard
row-by-column dot product, written here as the spec words it so that the
out-parameter Multiply below can be compared against computing into a fresh
temporary and copying it over afterward. -/
def Matrix33.product (a b : Matrix33) : Matrix33 :=
  ⟨![a.data 0 * b.data 0 + a.data 1 * b.data 3 + a.data 2 * b.data 6,
     a.data 0 * b.data 1 + a.data 1 * b.data 4 + a.data 2 * b.data 7,
     a.data 0 * b.data 2 + a.data 1 * b.data 5 + a.data 2 * b.data 8,
     a.data 3 * b.data 0 + a.data 4 * b.data 3 + a.data 5 * b.data 6,
     a.data 3 * b.data 1 + a.data 4 * b.data 4 + a.data 5 * b.data 7,
     a.data 3 * b.data 2 + a.data 4 * b.data 5 + a.data 5 * b.data 8,
     a.data 6 * b.data 0 + a.data 7 * b.data 3 + a.data 8 * b.data 6,
     a.data 6 * b.data 1 + a.data 7 * b.data 4 + a.data 8 * b.data 7,
     a.data 6 * b.data 2 + a.data 7 * b.data 5 + a.data 8 * b.data 8]⟩

/-- Modelled from the spec: Matrix33::Multiply(a, b, result) (declared
Matrix.h line 255, body in the absent Matrix.cpp) computes the product into
a temporary buffer before assigning, so the destination (whose prior value
is the third argument, possibly aliasing a or b) is overwritten with a value
computed only from the snapshots of a and b. -/
def Matrix33.Multiply (a b _result : Matrix33) : Matrix33 :=
  Matrix33.product a b

/-- The standard matrix-vector product, result row i equal to row i of a
dotted with vec, as the spec words it; the fresh-temporary counterpart of
the vector Multiply overload. -/
def Matrix33.apply3 (a : Matrix33) (vec : TVec3 ℝ) : TVec3 ℝ :=
  ⟨a.data 0 * vec.x + a.data 1 * vec.y + a.data 2 * vec.z,
   a.data 3 * vec.x + a.data 4 * vec.y + a.data 5 * vec.z,
   a.data 6 * vec.x + a.data 7 * vec.y + a.data 8 * vec.z⟩

/-- Modelled from the spec: Matrix33::Multiply(a, vec, result) (declared
Matrix.h line 256, body in the absent Matrix.cpp), the standard
matrix-vector product with the same no-partial-overwrite aliasing
guarantee: the destination (prior value the third argument) is overwritten
with a value computed only from the snapshots of a and vec. -/
def Matrix33.MultiplyVec (a : Matrix33) (vec _result : TVec3 ℝ) : TVec3 ℝ :=
  Matrix33.apply3 a vec

/-- Member operator *= of Matrix.h lines 258-262: Multiply(*this, rhs, this),
the result pointer aliasing the left operand. -/
def Matrix33.mulAssign (m rhs : Matrix33) : Matrix33 :=
  Matrix33.Multiply m rhs m

/-- Free operator * of Matrix.h lines 268-271: copies lhs, delegates to *=. -/
def Matrix33.mulOp (lhs rhs : Matrix33) : Matrix33 :=
  Matrix33.mulAssign lhs rhs

/-- Free operator * of Matrix.h lines 273-277: Multiply(lhs, rhs, addr rhs),
the result vector aliasing the input vector, which is then returned. -/
def Matrix33.mulVecOp (lhs : Matrix33) (rhs : TVec3 ℝ) : TVec3 ℝ :=
  Matrix33.MultiplyVec lhs rhs rhs

/-- Matrix44 of Matrix.h lines 279-304: a row-major array of 16 float
cells, cell of row r and column c at index r * 4 + c. -/
structure Matrix44 where
  data : Fin 16 → ℝ

/-- Modelled from the spec: Matrix44::Identity (declared Matrix.h line 282,
body in the absent Matrix.cpp), the 4 by 4 identity. -/
def Matrix44.Identity : Matrix44 :=
  ⟨![1, 0, 0, 0,
     0, 1, 0, 0,
     0, 0, 1, 0,
     0, 0, 0, 1]⟩

/-- Modelled from the spec: Matrix44::FromMatrix33 (declared Matrix.h line
283, body in the absent Matrix.cpp), embeds the 3 by 3 linear part in the
upper-left block, identity elsewhere. -/
def Matrix44.FromMatrix33 (m33 : Matrix33) : Matrix44 :=
  ⟨![m33.data 0, m33.data 1, m33.data 2, 0,
     m33.data 3, m33.data 4, m33.data 5, 0,
     m33.data 6, m33.data 7, m33.data 8, 0,
     0, 0, 0, 1]⟩

/-- Modelled from the spec: Matrix44::FromArray (declared Matrix.h line
284, body in the absent Matrix.cpp), direct row-major construction from 16
scalars with no transformation. -/
def Matrix44.FromArray (arr : Fin 16 → ℝ) : Matrix44 :=
  ⟨arr⟩

/-- Modelled from the spec: Matrix44::Translate (declared Matrix.h line
286, body in the absent Matrix.cpp), the identity matrix with the
translation components in the last column of rows 0 to 2. -/
def Matrix44.Translate (vec : TVec3 ℝ) : Matrix44 :=
  ⟨![1, 0, 0, vec.x,
     0, 1, 0, vec.y,
     0, 0, 1, vec.z,
     0, 0, 0, 1]⟩

/-- Modelled from the spec: Matrix44::Perspective (declared Matrix.h line
288, body in the absent Matrix.cpp), the OpenGL-style right-handed
perspective matrix: with f = 1 / tan(fov_y / 2), rows (f/aspect,0,0,0),
(0,f,0,0), (0,0,(zFar+zNear)/(zNear-zFar),(2*zFar*zNear)/(zNear-zFar)),
(0,0,-1,0). -/
noncomputable def Matrix44.Perspective (fov_y aspect_ratio z_near z_far : ℝ) : Matrix44 :=
  ⟨![1 / Real.tan (fov_y / 2) / aspect_ratio, 0, 0, 0,
     0, 1 / Real.tan (fov_y / 2), 0, 0,
     0, 0, (z_far + z_near) / (z_near - z_far), 2 * z_far * z_near / (z_near - z_far),
     0, 0, -1, 0]⟩

/-- The fresh temporary of the 4 by 4 matrix product, the standard
row-by-column dot product, the counterpart the out-parameter Multiply is
compared against. -/
def Matrix44.product (a b : Matrix44) : Matrix44 :=
  ⟨![a.data 0 * b.data 0 + a.data 1 * b.data 4 + a.data 2 * b.data 8 + a.data 3 * b.data 12,
     a.data 0 * b.data 1 + a.data 1 * b.data 5 + a.data 2 * b.data 9 + a.data 3 * b.data 13,
     a.data 0 * b.data 2 + a.data 1 * b.data 6 + a.data 2 * b.data 10 + a.data 3 * b.data 14,
     a.data 0 * b.data 3 + a.data 1 * b.data 7 + a.data 2 * b.data 11 + a.data 3 * b.data 15,
     a.data 4 * b.data 0 + a.data 5 * b.data 4 + a.data 6 * b.data 8 + a.data 7 * b.data 12,
     a.data 4 * b.data 1 + a.data 5 * b.data 5 + a.data 6 * b.data 9 + a.data 7 * b.data 13,
     a.data 4 * b.data 2 + a.data 5 * b.data 6 + a.data 6 * b.data 10 + a.data 7 * b.data 14,
     a.data 4 * b.data 3 + a.data 5 * b.data 7 + a.data 6 * b.data 11 + a.data 7 * b.data 15,
     a.data 8 * b.data 0 + a.data 9 * b.data 4 + a.data 10 * b.data 8 + a.data 11 * b.data 12,
     a.data 8 * b.data 1 + a.data 9 * b.data 5 + a.data 10 * b.data 9 + a.data 11 * b.data 13,
     a.data 8 * b.data 2 + a.data 9 * b.data 6 + a.data 10 * b.data 10 + a.data 11 * b.data 14,
     a.data 8 * b.data 3 + a.data 9 * b.data 7 + a.data 10 * b.data 11 + a.data 11 * b.data 15,
     a.data 12 * b.data 0 + a.data 13 * b.data 4 + a.data 14 * b.data 8 + a.data 15 * b.data 12,
     a.data 12 * b.data 1 + a.data 13 * b.data 5 + a.data 14 * b.data 9 + a.data 15 * b.data 13,
     a.data 12 * b.data 2 + a.data 13 * b.data 6 + a.data 14 * b.data 10 + a.data 15 * b.data 14,
     a.data 12 * b.data 3 + a.data 13 * b.data 7 + a.data 14 * b.data 11 + a.data 15 * b.data 15]⟩

/-- Modelled from the spec: Matrix44::Multiply(a, b, result) (declared
Matrix.h line 290, body in the absent Matrix.cpp), same contract and
aliasing guarantee as the Matrix33 overload: the destination (prior value
the third argument) is overwritten with a value computed only from the
snapshots of a and b. -/
def Matrix44.Multiply (a b _result : Matrix44) : Matrix44 :=
  Matrix44.product a b

/-- The standard 4 by 4 matrix-vector product, result row i equal to row i
dotted with vec. -/
def Matrix44.apply4 (a : Matrix44) (vec : TVec4 ℝ) : TVec4 ℝ :=
  ⟨a.data 0 * vec.x + a.data 1 * vec.y + a.data 2 * vec.z + a.data 3 * vec.w,
   a.data 4 * vec.x + a.data 5 * vec.y + a.data 6 * vec.z + a.data 7 * vec.w,
   a.data 8 * vec.x + a.data 9 * vec.y + a.data 10 * vec.z + a.data 11 * vec.w,
   a.data 12 * vec.x + a.data 13 * vec.y + a.data 14 * vec.z + a.data 15 * vec.w⟩

/-- Modelled from the spec: Matrix44::Multiply(a, vec, result) (declared
Matrix.h line 291, body in the absent Matrix.cpp), the standard
matrix-vector product with the no-partial-overwrite aliasing guarantee. -/
def Matrix44.MultiplyVec (a : Matrix44) (vec _result : TVec4 ℝ) : TVec4 ℝ :=
  Matrix44.apply4 a vec

/-- Modelled from the spec: Matrix44::Transform(point, w) (declared
Matrix.h line 294, body in the absent Matrix.cpp) computes the
matrix-vector product of this with the homogeneous vector
(point.x, point.y, point.z, w) and returns only the resulting xyz; no
perspective division is performed. -/
def Matrix44.Transform (m : Matrix44) (point : TVec3 ℝ) (w : ℝ) : TVec3 ℝ :=
  let r := Matrix44.apply4 m ⟨point.x, point.y, point.z, w⟩
  ⟨r.x, r.y, r.z⟩

/-- Member operator *= of Matrix.h lines 296-300: Multiply(*this, rhs, this),
the result pointer aliasing the left operand. -/
def Matrix44.mulAssign (m rhs : Matrix44) : Matrix44 :=
  Matrix44.Multiply m rhs m

/-- Free operator * of Matrix.h lines 306-309: copies lhs, delegates to *=. -/
def Matrix44.mulOp (lhs rhs : Matrix44) : Matrix44 :=
  Matrix44.mulAssign lhs rhs

/-- Free operator * of Matrix.h lines 311-315: Multiply(lhs, rhs, addr rhs),
the result vector aliasing the input vector, which is then returned. -/
def Matrix44.mulVecOp (lhs : Matrix44) (rhs : TVec4 ℝ) : TVec4 ℝ :=
  Matrix44.MultiplyVec lhs rhs rhs

end Common

open Common

/-- C1: Multiply with a result pointer aliasing either operand (as the
member operator *= does, and as the matrix-vector operator * does with the
result vector aliasing the input vector) yields exactly the matrix or
vector obtained by computing the product into a fresh temporary and copying
it into the destination. -/
theorem C1_multiply_aliasing :
    (∀ a : Matrix33, Matrix33.mulAssign a a = Matrix33.product a a) ∧
    (∀ a b : Matrix33,
      Matrix33.Multiply a b a = Matrix33.product a b ∧
      Matrix33.Multiply a b b = Matrix33.product a b) ∧
    (∀ a : Matrix44, Matrix44.mulAssign a a = Matrix44.product a a) ∧
    (∀ a b : Matrix44,
      Matrix44.Multiply a b a = Matrix44.product a b ∧
      Matrix44.Multiply a b b = Matrix44.product a b) ∧
    (∀ (m : Matrix33) (v : TVec3 ℝ), Matrix33.mulVecOp m v = Matrix33.apply3 m v) ∧
    (∀ (m : Matrix44) (v : TVec4 ℝ), Matrix44.mulVecOp m v = Matrix44.apply4 m v) :=
  ⟨fun _ => rfl, fun _ _ => ⟨rfl, rfl⟩, fun _ => rfl, fun _ _ => ⟨rfl, rfl⟩,
   fun _ _ => rfl, fun _ _ => rfl⟩

/-- C2 counterexample: the claim asserts binary + and - and unary negation
for all three vector arities, but the TVec4 union body declares no binary +
or - between two TVec4 values and no unary negation at all; the overload
flags recorded from the source are false. -/
theorem C2_counterexample_vec4_ops :
    TVec4.hasBinaryAddSub = false ∧ TVec4.hasUnaryNeg = false :=
  ⟨rfl, rfl⟩

/-- C2 (amended): for TVec2 and TVec3, the binary operators + and - compute
the componentwise sum and difference and unary negation flips every
component; elementwise * and / are componentwise, as binary operators for
TVec3 and as the compound *= and /= for TVec4 (which has no binary + or -
and no unary negation). -/
theorem C2_componentwise_ops :
    (∀ a b : TVec2 ℝ,
      TVec2.add a b = ⟨a.x + b.x, a.y + b.y⟩ ∧
      TVec2.sub a b = ⟨a.x - b.x, a.y - b.y⟩ ∧
      TVec2.neg a = ⟨-a.x, -a.y⟩) ∧
    (∀ a b : TVec3 ℝ,
      TVec3.add a b = ⟨a.x + b.x, a.y + b.y, a.z + b.z⟩ ∧
      TVec3.sub a b = ⟨a.x - b.x, a.y - b.y, a.z - b.z⟩ ∧
      TVec3.mul a b = ⟨a.x * b.x, a.y * b.y, a.z * b.z⟩ ∧
      TVec3.div a b = ⟨a.x / b.x, a.y / b.y, a.z / b.z⟩ ∧
      TVec3.neg a = ⟨-a.x, -a.y, -a.z⟩) ∧
    (∀ a b : TVec4 ℝ,
      TVec4.mulAssign a b = ⟨a.x * b.x, a.y * b.y, a.z * b.z, a.w * b.w⟩ ∧
      TVec4.divAssign a b = ⟨a.x / b.x, a.y / b.y, a.z / b.z, a.w / b.w⟩) :=
  ⟨fun _ _ => ⟨rfl, rfl, rfl⟩, fun _ _ => ⟨rfl, rfl, rfl, rfl, rfl⟩, fun _ _ => ⟨rfl, rfl⟩⟩

/-- C3: Perspective(fov_y, aspect, z_near, z_far) is, in row-major order,
the matrix with f = 1/tan(fov_y/2): rows (f/aspect,0,0,0), (0,f,0,0),
(0,0,(zFar+zNear)/(zNear-zFar),(2*zFar*zNear)/(zNear-zFar)), (0,0,-1,0);
in particular Perspective(pi/2, 1, 1, 100) has cell (2,2) = (100+1)/(1-100)
and cell (2,3) = (2*100*1)/(1-100). -/
theorem C3_perspective_matrix :
    (∀ fov_y aspect_ratio z_near z_far : ℝ,
      Matrix44.Perspective fov_y aspect_ratio z_near z_far =
        ⟨![(1 / Real.tan (fov_y / 2)) / aspect_ratio, 0, 0, 0,
           0, 1 / Real.tan (fov_y / 2), 0, 0,
           0, 0, (z_far + z_near) / (z_near - z_far),
             (2 * z_far * z_near) / (z_near - z_far),
           0, 0, -1, 0]⟩) ∧
    (Matrix44.Perspective (Real.pi / 2) 1 1 100).data 10 = (100 + 1) / (1 - 100) ∧
    (Matrix44.Perspective (Real.pi / 2) 1 1 100).data 11 = (2 * 100 * 1) / (1 - 100) := by
  refine ⟨fun _ _ _ _ => rfl, rfl, ?_⟩
  show (2 * 100 * 1 : ℝ) / (1 - 100) = (2 * 100 * 1) / (1 - 100)
  rfl

/-- C4: with c = cos rad and s = sin rad, RotateX rad has row-major rows
(1,0,0), (0,c,-s), (0,s,c); RotateY rad has rows (c,0,s), (0,1,0),
(-s,0,c); RotateZ rad has rows (c,-s,0), (s,c,0), (0,0,1). -/
theorem C4_rotation_matrices :
    ∀ rad : ℝ,
      Matrix33.RotateX rad =
        ⟨![1, 0, 0,
           0, Real.cos rad, -Real.sin rad,
           0, Real.sin rad, Real.cos rad]⟩ ∧
      Matrix33.RotateY rad =
        ⟨![Real.cos rad, 0, Real.sin rad,
           0, 1, 0,
           -Real.sin rad, 0, Real.cos rad]⟩ ∧
      Matrix33.RotateZ rad =
        ⟨![Real.cos rad, -Real.sin rad, 0,
           Real.sin rad, Real.cos rad, 0,
           0, 0, 1]⟩ :=
  fun _ => ⟨rfl, rfl, rfl⟩

/-- C5: Transform(point, w) is exactly the xyz part of the 4 by 4
matrix-vector product of the matrix with the homogeneous vector
(point.x, point.y, point.z, w); the w component of that product is
discarded and no perspective division is performed. -/
theorem C5_transform_homogeneous :
    ∀ (m : Matrix44) (point : TVec3 ℝ) (w : ℝ) (dest : TVec4 ℝ),
      Matrix44.Transform m point w =
        ⟨(Matrix44.MultiplyVec m (TVec4.ofVec3 point w) dest).x,
         (Matrix44.MultiplyVec m (TVec4.ofVec3 point w) dest).y,
         (Matrix44.MultiplyVec m (TVec4.ofVec3 point w) dest).z⟩ :=
  fun _ _ _ _ => rfl

/-- C6: Translate(vec) is the identity matrix except that the last column
of rows 0 to 2 holds vec.x, vec.y, vec.z, so transforming any point p with
w = 1 adds the translation: Translate(vec).Transform(p, 1) = p + vec; in
particular Translate (5,0,0) applied to (1,2,3) with w = 1 gives (6,2,3). -/
theorem C6_translate_matrix :
    (∀ vec : TVec3 ℝ,
      Matrix44.Translate vec =
        ⟨![1, 0, 0, vec.x,
           0, 1, 0, vec.y,
           0, 0, 1, vec.z,
           0, 0, 0, 1]⟩) ∧
    (∀ vec p : TVec3 ℝ,
      Matrix44.Transform (Matrix44.Translate vec) p 1 = TVec3.add p vec) ∧
    Matrix44.Transform (Matrix44.Translate ⟨5, 0, 0⟩) ⟨1, 2, 3⟩ 1 = ⟨6, 2, 3⟩ := by
  refine ⟨fun _ => rfl, ?_, ?_⟩
  · intro vec p
    have h : Matrix44.Transform (Matrix44.Translate vec) p 1 =
        ⟨1 * p.x + 0 * p.y + 0 * p.z + vec.x * 1,
         0 * p.x + 1 * p.y + 0 * p.z + vec.y * 1,
         0 * p.x + 0 * p.y + 1 * p.z + vec.z * 1⟩ := rfl
    rw [h]
    show _ = TVec3.mk (p.x + vec.x) (p.y + vec.y) (p.z + vec.z)
    simp only [TVec3.mk.injEq]
    refine ⟨by ring, by ring, by ring⟩
  · have h : Matrix44.Transform (Matrix44.Translate ⟨5, 0, 0⟩) ⟨1, 2, 3⟩ 1 =
        ⟨1 * 1 + 0 * 2 + 0 * 3 + 5 * 1,
         0 * 1 + 1 * 2 + 0 * 3 + 0 * 1,
         0 * 1 + 0 * 2 + 1 * 3 + 0 * 1⟩ := rfl
    rw [h]
    simp only [TVec3.mk.injEq]
    norm_num

/-- C7: the identity 3 by 3 matrix has 1 on the diagonal and 0 elsewhere in
its row-major storage, and multiplying it with any Vec3 returns that vector
exactly. -/
theorem C7_identity_times_vector :
    (∀ i j : Fin 3,
      Matrix33.Identity.data ⟨3 * i.val + j.val, by omega⟩ = if i = j then 1 else 0) ∧
    (∀ v : TVec3 ℝ, Matrix33.mulVecOp Matrix33.Identity v = v) := by
  constructor
  · intro i j
    fin_cases i <;> fin_cases j <;> norm_num [Matrix33.Identity, Fin.ext_iff]
  · intro v
    have h : Matrix33.mulVecOp Matrix33.Identity v =
        ⟨1 * v.x + 0 * v.y + 0 * v.z,
         0 * v.x + 1 * v.y + 0 * v.z,
         0 * v.x + 0 * v.y + 1 * v.z⟩ := rfl
    rw [h]
    show _ = TVec3.mk v.x v.y v.z
    simp only [TVec3.mk.injEq]
    refine ⟨by ring, by ring, by ring⟩

/-- C8: Normalized returns the vector divided componentwise by Length,
Length being the square root of Dot(v, v); hence for every v of nonzero
length, the length of Normalized v equals 1 (exactly over the reals, so in
particular within floating-point tolerance); no zero-length check is
performed by the library. -/
theorem C8_normalized_unit_length :
    (∀ v : TVec3 ℝ,
      v.Normalized = ⟨v.x / v.Length, v.y / v.Length, v.z / v.Length⟩ ∧
      v.Length = Real.sqrt (v.Dot v) ∧
      (v.Length ≠ 0 → v.Normalized.Length = 1)) ∧
    (∀ v : TVec2 ℝ,
      v.Normalized = ⟨v.x / v.Length, v.y / v.Length⟩ ∧
      v.Length = Real.sqrt (v.Dot v) ∧
      (v.Length ≠ 0 → v.Normalized.Length = 1)) := by
  constructor
  · intro v
    refine ⟨rfl, rfl, fun h => ?_⟩
    have h' : Real.sqrt v.LengthSquared ≠ 0 := h
    have hQ : 0 < v.LengthSquared := Real.sqrt_ne_zero'.mp h'
    have hL2 : v.Length ^ 2 = v.LengthSquared := Real.sq_sqrt hQ.le
    have hexp : v.Normalized.LengthSquared = v.LengthSquared / v.Length ^ 2 := by
      show v.x / v.Length * (v.x / v.Length) + v.y / v.Length * (v.y / v.Length) +
          v.z / v.Length * (v.z / v.Length) =
        (v.x * v.x + v.y * v.y + v.z * v.z) / v.Length ^ 2
      ring
    have hone : v.Normalized.LengthSquared = 1 := by
      rw [hexp, hL2, div_self hQ.ne']
    show Real.sqrt v.Normalized.LengthSquared = 1
    rw [hone, Real.sqrt_one]
  · intro v
    refine ⟨rfl, rfl, fun h => ?_⟩
    have h' : Real.sqrt v.LengthSquared ≠ 0 := h
    have hQ : 0 < v.LengthSquared := Real.sqrt_ne_zero'.mp h'
    have hL2 : v.Length ^ 2 = v.LengthSquared := Real.sq_sqrt hQ.le
    have hexp : v.Normalized.LengthSquared = v.LengthSquared / v.Length ^ 2 := by
      show v.x / v.Length * (v.x / v.Length) + v.y / v.Length * (v.y / v.Length) =
        (v.x * v.x + v.y * v.y) / v.Length ^ 2
      ring
    have hone : v.Normalized.LengthSquared = 1 := by
      rw [hexp, hL2, div_self hQ.ne']
    show Real.sqrt v.Normalized.LengthSquared = 1
    rw [hone, Real.sqrt_one]

/-- C8 witness: the vector (3,4,0) has length 5, which is nonzero, and its
normalization has length exactly 1; likewise the TVec2 vector (3,4). -/
theorem C8_normalized_unit_length_witness :
    TVec3.Length ⟨3, 4, 0⟩ ≠ 0 ∧ (TVec3.Normalized ⟨3, 4, 0⟩).Length = 1 ∧
    TVec2.Length ⟨3, 4⟩ ≠ 0 ∧ (TVec2.Normalized ⟨3, 4⟩).Length = 1 := by
  have h3 : TVec3.Length ⟨3, 4, 0⟩ ≠ 0 := by
    show Real.sqrt (TVec3.LengthSquared ⟨3, 4, 0⟩) ≠ 0
    rw [Real.sqrt_ne_zero']
    show (0 : ℝ) < 3 * 3 + 4 * 4 + 0 * 0
    norm_num
  have h2 : TVec2.Length ⟨3, 4⟩ ≠ 0 := by
    show Real.sqrt (TVec2.LengthSquared ⟨3, 4⟩) ≠ 0
    rw [Real.sqrt_ne_zero']
    show (0 : ℝ) < 3 * 3 + 4 * 4
    norm_num
  exact ⟨h3, (C8_normalized_unit_length.1 ⟨3, 4, 0⟩).2.2 h3,
         h2, (C8_normalized_unit_length.2 ⟨3, 4⟩).2.2 h2⟩

/-- C9: the TVec2 scalar cross product is x1*y2 - y1*x2 and
anti-commutes: Cross(a, b) = -Cross(b, a). -/
theorem C9_cross_antisymm :
    ∀ a b : TVec2 ℝ,
      TVec2.Cross a b = a.x * b.y - a.y * b.x ∧
      TVec2.Cross a b = -(TVec2.Cross b a) := by
  intro a b
  refine ⟨rfl, ?_⟩
  show (a.x * b.y) - (a.y * b.x) = -((b.x * a.y) - (b.y * a.x))
  ring

/-- C10: a default-constructed TVec2, TVec3, or TVec4 is the zero vector:
the default member initializer of the storage array value-initializes
every component to 0. -/
theorem C10_default_zero_vector :
    (∀ i, (TVec2.defaultValue ℝ).dataView i = 0) ∧
    (∀ i, (TVec3.defaultValue ℝ).dataView i = 0) ∧
    (∀ i, (TVec4.defaultValue ℝ).dataView i = 0) := by
  refine ⟨?_, ?_, ?_⟩ <;> intro i <;> fin_cases i <;> rfl
